import Mathlib

/-!
Verification of the BSE news sentiment pipeline (`src/tools/web_fetch.py`,
`src/services/bse_analysis_service.py`, `src/cli/bse_news.py`).

Text is modelled as `List Char`.  Python's regex character classes `\s` and
`\d`, and `str.strip()`, are modelled over their ASCII subsets
(space, tab, newline, carriage return, vertical tab, form feed; digits 0-9);
the Unicode extensions of those classes in CPython do not affect any of the
properties proved here, which only concern the label / field structure of
the analysed text.
-/

abbrev Str := List Char

/-- ASCII model of Python's regex class `\s` (and of the default
`str.strip()` character set). -/
def isPySpace (c : Char) : Bool :=
  c == ' ' || c == '\t' || c == '\n' || c == '\r' || c == '\x0b' || c == '\x0c'

/-- ASCII model of Python's regex class `\d`. -/
def isPyDigit (c : Char) : Bool :=
  '0' ≤ c && c ≤ '9'

/-- Value of a digit string, as computed by Python's `int()` on a run of
decimal digits. -/
def digitsVal (l : Str) : Nat :=
  l.foldl (fun acc c => acc * 10 + (c.toNat - 48)) 0

/-- The literal label `"Score:"` from the regex `Score:\s*(-?\d+)` in
`BSENewsAgent._parse_combined_analysis`. -/
def scoreLabel : Str := "Score:".toList

/-- The literal label `"Reasoning:"` from the regex
`Reasoning:\s*(.+?)(?=Key Factors:|$)`. -/
def reasoningLabel : Str := "Reasoning:".toList

/-- The literal label `"Key Factors:"` from the regex
`Key Factors:\s*(.+?)(?=Score:|$)`. -/
def keyFactorsLabel : Str := "Key Factors:".toList

/-- Anchored match of the regex `Score:\s*(-?\d+)` at the head of `s`,
returning the captured integer.  Greedy `\s*` needs no backtracking here
because no character is both whitespace and a digit or a minus sign. -/
def matchScoreHere (s : Str) : Option Int :=
  if List.isPrefixOf scoreLabel s then
    let t := (s.drop scoreLabel.length).dropWhile isPySpace
    match t with
    | '-' :: t2 =>
      let ds := t2.takeWhile isPyDigit
      if ds.isEmpty then none else some (-(digitsVal ds : Int))
    | _ =>
      let ds := t.takeWhile isPyDigit
      if ds.isEmpty then none else some ((digitsVal ds : Int))
  else none

/-- Leftmost-match search: `re.search` tries the anchored matcher at every
start position, left to right, and returns the first success. -/
def firstSome {α : Type} (f : Str → Option α) : Str → Option α
  | [] => f []
  | c :: rest =>
    match f (c :: rest) with
    | some v => some v
    | none => firstSome f rest

/-- `re.search(r"Score:\s*(-?\d+)", s)`, returning the captured integer. -/
def searchScore (s : Str) : Option Int :=
  firstSome matchScoreHere s

/-- The lookahead `(?=stop|$)` on the remaining text `v`.  Without
`re.MULTILINE`, `$` matches at the end of the string or just before a
final newline. -/
def lookNext (stop : Str) (v : Str) : Bool :=
  List.isPrefixOf stop v || v.isEmpty || v == ['\n']

/-- The lazy group `(.+?)(?=stop|$)` (with `re.DOTALL`) anchored at the head:
the shortest non-empty prefix after which the lookahead holds. -/
def lazyGroup (stop : Str) : Str → Option Str
  | [] => none
  | c :: rest =>
    if lookNext stop rest then some [c]
    else
      match lazyGroup stop rest with
      | some g => some (c :: g)
      | none => none

/-- `\s*(.+?)(?=stop|$)` anchored at the head: greedy whitespace first,
backtracking one whitespace character at a time when the lazy group cannot
complete. -/
def wsThenLazy (stop : Str) : Str → Option Str
  | [] => none
  | c :: rest =>
    if isPySpace c then
      match wsThenLazy stop rest with
      | some g => some g
      | none => lazyGroup stop (c :: rest)
    else lazyGroup stop (c :: rest)

/-- Anchored match of `label\s*(.+?)(?=stop|$)` at the head of `s`,
returning the capture of the lazy group. -/
def matchFieldHere (label stop : Str) (s : Str) : Option Str :=
  if List.isPrefixOf label s then wsThenLazy stop (s.drop label.length)
  else none

/-- `re.search(label + r"\s*(.+?)(?=" + stop + r"|$)", s, re.DOTALL)`,
returning the captured group. -/
def searchField (label stop : Str) (s : Str) : Option Str :=
  firstSome (matchFieldHere label stop) s

/-- Python's `str.strip()` over the ASCII whitespace set. -/
def pyStrip (l : Str) : Str :=
  ((l.dropWhile isPySpace).reverse.dropWhile isPySpace).reverse

/-- Python's `str.split("\n")`: every newline separates pieces and empty
pieces are kept, so the result is never the empty list. -/
def pySplitNL : Str → List Str
  | [] => [[]]
  | c :: rest =>
    let r := pySplitNL rest
    if c = '\n' then [] :: r
    else
      match r with
      | [] => [[c]]
      | h :: t => (c :: h) :: t

/-- The record shape returned by `BSENewsAgent._parse_combined_analysis`. -/
structure SentimentData where
  overall_sentiment : Int
  analysis_reasoning : Str
  key_positive_drivers : List Str
  key_risk_factors : List Str
  confidence : Nat
deriving DecidableEq, Repr

/-- The factor list of `_parse_combined_analysis`:
`factors_match.group(1).strip().split("\n") if factors_match else []`. -/
def parsedFactors (analysis_text : Str) : List Str :=
  match searchField keyFactorsLabel scoreLabel analysis_text with
  | some g => pySplitNL (pyStrip g)
  | none => []

/-- `BSENewsAgent._parse_combined_analysis` (src/tools/web_fetch.py,
lines 585-620): extract score, reasoning and factors from the free-text
reply, categorize factors by the sign of the score, and compute
`confidence = min(100, article_count * 10)`. -/
def parse_combined_analysis (analysis_text : Str) (article_count : Nat) :
    SentimentData :=
  let score := (searchScore analysis_text).getD 0
  let reasoning :=
    match searchField reasoningLabel keyFactorsLabel analysis_text with
    | some g => pyStrip g
    | none => []
  let factors := parsedFactors analysis_text
  { overall_sentiment := score
    analysis_reasoning := reasoning
    key_positive_drivers := if 0 < score then factors else []
    key_risk_factors := if score < 0 then factors else []
    confidence := min 100 (article_count * 10) }

/-- An article record as built by `BSENewsAgent._parse_rss_feed`. -/
structure Article where
  title : Str
  link : Str
  pub_date : Str
  description : Str
deriving DecidableEq, Repr

/-- The dedup identifier built by `BSENewsAgent._deduplicate_articles`:
`f"{article['title']}|{article['link']}"`, i.e. the joined string, not the
`(title, link)` pair. -/
def articleKey (a : Article) : Str :=
  a.title ++ '|' :: a.link

/-- Loop of `BSENewsAgent._deduplicate_articles` with its `seen` set
(modelled as the list of keys added so far). -/
def dedupAux (seen : List Str) : List Article → List Article
  | [] => []
  | a :: rest =>
    if articleKey a ∈ seen then dedupAux seen rest
    else a :: dedupAux (articleKey a :: seen) rest

/-- `BSENewsAgent._deduplicate_articles` (src/tools/web_fetch.py,
lines 668-682). -/
def deduplicate_articles (articles : List Article) : List Article :=
  dedupAux [] articles

/-- Modelled from the spec: keep an article exactly when no earlier article
of the input (the prefix before it, accumulated in `prev`) has an identical
dedup key.  Used to characterize `deduplicate_articles`. -/
def dedupSpecAux (prev : List Article) : List Article → List Article
  | [] => []
  | a :: rest =>
    if ∃ b ∈ prev, articleKey b = articleKey a then
      dedupSpecAux (prev ++ [a]) rest
    else a :: dedupSpecAux (prev ++ [a]) rest

/-- Python's substring test `pat in s`. -/
def containsSub (pat : Str) : Str → Bool
  | [] => List.isPrefixOf pat []
  | c :: rest => List.isPrefixOf pat (c :: rest) || containsSub pat rest

/-- The error marker checked by `analyze_company_news`:
`if "Error:" in result.llm_content`. -/
def errorMarker : Str := "Error:".toList

/-- The four templated search queries of `analyze_company_news`
(src/tools/web_fetch.py, lines 356-365). -/
def buildQueries (company : Str) : List Str :=
  [ '"' :: company ++ "\" earnings revenue profit loss when:7d".toList
  , '"' :: company ++ "\" acquisition merger partnership contract deal when:7d".toList
  , '"' :: company ++ "\" quarterly results guidance outlook forecast when:7d".toList
  , '"' :: company ++ "\" regulation policy government approval when:7d".toList ]

/-- The result dictionary returned by `BSENewsAgent.analyze_company_news`.
`analysis_reasoning` is `Option Str` because the error-path dictionaries do
not carry that key. -/
structure AnalysisRecord where
  company : Str
  analysis_date : Str
  search_queries_used : List Str
  articles_analyzed : Nat
  overall_sentiment : Int
  analysis_reasoning : Option Str
  key_positive_drivers : List Str
  key_risk_factors : List Str
  confidence : Nat
  status : Str
  display_message : Str
deriving DecidableEq, Repr

/-- `BSENewsAgent.analyze_company_news` (src/tools/web_fetch.py,
lines 339-522).  External effects are parameters: `today` is the value of
`datetime.now().strftime("%Y-%m-%d")`, `queryArticles` is the per-query
article list produced by `_parse_rss_feed` (a failed query contributes
`[]`, matching the `except: continue` and the `except` inside
`_parse_rss_feed`), and `llmReply` is the `llm_content` of the
`ToolResult` returned by `WebFetchTool.execute` for the composed prompt.
The second component counts completion-service invocations: the
zero-article branch returns before `web_fetch_tool.execute` is called. -/
def analyze_company_news (company today : Str)
    (queryArticles : List (List Article)) (llmReply : Str) :
    AnalysisRecord × Nat :=
  let queries := buildQueries company
  let all_articles := queryArticles.flatten
  let unique_articles := deduplicate_articles all_articles
  if unique_articles.isEmpty then
    ({ company := company
       analysis_date := today
       search_queries_used := queries
       articles_analyzed := 0
       overall_sentiment := 0
       analysis_reasoning := none
       key_positive_drivers := []
       key_risk_factors := []
       confidence := 0
       status := "error".toList
       display_message := "No articles found for analysis".toList }, 0)
  else if containsSub errorMarker llmReply then
    ({ company := company
       analysis_date := today
       search_queries_used := queries
       articles_analyzed := unique_articles.length
       overall_sentiment := 0
       analysis_reasoning := none
       key_positive_drivers := []
       key_risk_factors := []
       confidence := 0
       status := "error".toList
       display_message := llmReply }, 1)
  else
    let sd := parse_combined_analysis llmReply unique_articles.length
    ({ company := company
       analysis_date := today
       search_queries_used := queries
       articles_analyzed := unique_articles.length
       overall_sentiment := sd.overall_sentiment
       analysis_reasoning := some sd.analysis_reasoning
       key_positive_drivers := sd.key_positive_drivers
       key_risk_factors := sd.key_risk_factors
       confidence := sd.confidence
       status := "success".toList
       display_message := "Analyzed ".toList ++ (toString unique_articles.length).toList
         ++ " unique articles".toList }, 1)

/-- The skipped-branch message of `analyze_company`
(src/services/bse_analysis_service.py, line 96). -/
def skippedMessage (company : Str) : Str :=
  "Analysis already exists for ".toList ++ company
    ++ ". Use force to re-run.".toList

/-- Return value of the guarded `analyze_company`: either the fresh
three-key skipped dictionary, or the pipeline's analysis dictionary with
`s3_location` attached by `save_analysis`. -/
inductive GuardedOutcome where
  | skipped (company : Str)
  | completed (record : AnalysisRecord) (s3_location : Str)
deriving DecidableEq, Repr

/-- The `status` entry of a `GuardedOutcome` dictionary. -/
def outcomeStatus : GuardedOutcome → Str
  | .skipped _ => "skipped".toList
  | .completed r _ => r.status

/-- The `display_message` entry of a `GuardedOutcome` dictionary (the
skipped dictionary carries the fixed message). -/
def outcomeMessage : GuardedOutcome → Str
  | .skipped c => skippedMessage c
  | .completed r _ => r.display_message

/-- Python exceptions, as far as the claims need them. -/
inductive PyExc where
  | typeError
  | other (msg : Str)
deriving DecidableEq, Repr

/-- ASCII model of the character class `[a-z0-9]` whose complement is
collapsed by `_generate_filename`. -/
def isLowerAlnum (c : Char) : Bool :=
  ('a' ≤ c && c ≤ 'z') || ('0' ≤ c && c ≤ '9')

/-- `re.sub(r"[^a-z0-9]+", "_", s)`: each maximal run of characters outside
`[a-z0-9]` becomes a single underscore.  The flag records whether the
previous character belonged to such a run. -/
def subNonAlnum : Bool → Str → Str
  | _, [] => []
  | inRun, c :: rest =>
    if isLowerAlnum c then c :: subNonAlnum false rest
    else if inRun then subNonAlnum true rest
    else '_' :: subNonAlnum true rest

/-- Python's `str.strip("_")`. -/
def stripUnderscores (l : Str) : Str :=
  ((l.dropWhile (· == '_')).reverse.dropWhile (· == '_')).reverse

/-- The body of `BSENewsAgent._generate_filename` (src/tools/web_fetch.py,
lines 684-692): lower-case, collapse non-alphanumeric runs to single
underscores, strip leading/trailing underscores, append `.json`
(`Char.toLower`, like the rest of this file, is the ASCII model of the
Python operation). -/
def generate_filename (company_name : Str) : Str :=
  stripUnderscores (subNonAlnum false (company_name.map Char.toLower))
    ++ ".json".toList

/-- A call to `BSENewsAgent._generate_filename` with `argCount` positional
arguments.  `_generate_filename` is an instance method with two parameters
`(self, company_name)`; `check_analysis_exists` (line 166 of
src/services/bse_analysis_service.py) accesses it through the class and
passes a single argument, which binds to `self`, so CPython raises
`TypeError` for the missing `company_name` before the body runs. -/
def generate_filename_call (argCount : Nat) (company_name : Str) :
    Except PyExc Str :=
  if argCount = 2 then .ok (generate_filename company_name)
  else .error .typeError

/-- `BSEAnalysisService.check_analysis_exists`
(src/services/bse_analysis_service.py, lines 148-178).  `storedParses` is
whether the persisted object at the derived key opens and parses as JSON —
the condition the `try` block at lines 170-178 would report.  The filename
derivation at line 166 sits above that `try` and calls the instance method
through the class with one positional argument, so the function raises
`TypeError` before reaching the `try` and never returns a boolean. -/
def check_analysis_exists (company_name : Str) (storedParses : Bool) :
    Except PyExc Bool :=
  match generate_filename_call 1 company_name with
  | .error e => .error e
  | .ok _ => .ok storedParses

/-- The bound call `self.agent.save_analysis_to_file(analysis, s3_bucket)`
in `BSEAnalysisService.save_analysis` (src/services/bse_analysis_service.py,
line 146), with `argCount` positional arguments including the receiver.
`save_analysis_to_file` (src/tools/web_fetch.py, lines 694-720) has two
parameters `(self, analysis_data)` but the bound call passes three values,
so CPython raises `TypeError` at the call site; `saveLoc` is the filepath
the body would return. -/
def save_analysis_to_file_call (argCount : Nat) (saveLoc : Str) :
    Except PyExc Str :=
  if argCount = 2 then .ok saveLoc else .error .typeError

/-- The module-level `analyze_company` (src/services/bse_analysis_service.py,
lines 73-109).  `not force and check_analysis_exists(...)` short-circuits:
with `force=true` the guard is not evaluated.  With `force=false` the guard
calls `check_analysis_exists`, whose unconditional `TypeError` propagates
(first component) before `BSEAnalysisService()` is constructed, so the
completion-call count (second component) is 0 and the skipped dictionary of
lines 94-98 is unreachable.  On the recompute path, `pipeline` is the
outcome of `service.analyze_company`, i.e. of `analyze_company_news`,
paired with its completion-call count; `save_analysis` then forwards to the
`save_analysis_to_file` bound call, whose own arity `TypeError` propagates
after the pipeline has already run. -/
def analyze_company (company : Str) (force storedParses : Bool)
    (pipeline : AnalysisRecord × Nat) (saveLoc : Str) :
    (Except PyExc GuardedOutcome) × Nat :=
  let recompute : (Except PyExc GuardedOutcome) × Nat :=
    match save_analysis_to_file_call 3 saveLoc with
    | .error e => (.error e, pipeline.2)
    | .ok loc => (.ok (.completed pipeline.1 loc), pipeline.2)
  if !force then
    match check_analysis_exists company storedParses with
    | .error e => (.error e, 0)
    | .ok true => (.ok (.skipped company), 0)
    | .ok false => recompute
  else recompute

/-- A call to `track_scrape_result` (src/services/bse_analysis_service.py,
lines 26-70) with `argCount` positional arguments.  The definition has
exactly two parameters `(company_name, success)`; CPython raises
`TypeError` for any other positional count before the body runs, and the
body wraps everything in `try ... except Exception: pass`, so a call with
the right arity always returns normally. -/
def track_scrape_result (argCount : Nat) : Except PyExc Unit :=
  if argCount = 2 then .ok () else .error .typeError

/-- `scrape_bse_news` (src/cli/bse_news.py, lines 16-48).  `analysis` is
the outcome of `analyze_company` (normal return or raised exception).
Both tracking calls in the source pass three positional arguments
`(company_name, success_flag, table_name)`.  The first tracking call sits
inside the `try`, so an exception from it reaches the `except` handler;
an exception raised by the handler's own tracking call propagates to the
caller; otherwise the handler re-raises the original exception. -/
def scrape_bse_news (analysis : Except PyExc GuardedOutcome) :
    Except PyExc GuardedOutcome :=
  match analysis with
  | .ok a =>
    match track_scrape_result 3 with
    | .ok _ => .ok a
    | .error e =>
      match track_scrape_result 3 with
      | .ok _ => .error e
      | .error e2 => .error e2
  | .error e =>
    match track_scrape_result 3 with
    | .ok _ => .error e
    | .error e2 => .error e2

theorem firstSome_eq_none_iff {α : Type} (f : Str → Option α) (s : Str) :
    firstSome f s = none ↔ ∀ i, f (s.drop i) = none := by
  induction s with
  | nil =>
    simp only [firstSome, List.drop_nil]
    exact ⟨fun h _ => h, fun h => h 0⟩
  | cons c rest ih =>
    constructor
    · intro h i
      have hf : f (c :: rest) = none := by
        cases hfc : f (c :: rest) with
        | none => rfl
        | some v => simp [firstSome, hfc] at h
      cases i with
      | zero => simpa using hf
      | succ j =>
        have h2 : firstSome f rest = none := by simpa [firstSome, hf] using h
        simpa [List.drop_succ_cons] using ih.mp h2 j
    · intro h
      have hf : f (c :: rest) = none := by simpa using h 0
      have h2 : ∀ i, f (rest.drop i) = none := fun i => by
        simpa [List.drop_succ_cons] using h (i + 1)
      simp [firstSome, hf, ih.mpr h2]

theorem firstSome_eq_some_iff {α : Type} (f : Str → Option α) (s : Str)
    (v : α) :
    firstSome f s = some v ↔
      ∃ i, f (s.drop i) = some v ∧ ∀ j, j < i → f (s.drop j) = none := by
  induction s with
  | nil =>
    simp only [firstSome, List.drop_nil]
    constructor
    · intro h
      exact ⟨0, h, fun j hj => absurd hj (by omega)⟩
    · rintro ⟨i, h1, h2⟩
      exact h1
  | cons c rest ih =>
    cases hf : f (c :: rest) with
    | some w =>
      constructor
      · intro h
        have hv : some w = some v := by simpa [firstSome, hf] using h
        exact ⟨0, by simpa using hf.trans hv, fun j hj => absurd hj (by omega)⟩
      · rintro ⟨i, h1, h2⟩
        cases i with
        | zero =>
          have h1' : f (c :: rest) = some v := by simpa using h1
          simp [firstSome, hf, hf.symm.trans h1']
        | succ j =>
          have h0 : f (c :: rest) = none := by simpa using h2 0 (by omega)
          rw [hf] at h0
          exact Option.noConfusion h0
    | none =>
      have heq : firstSome f (c :: rest) = firstSome f rest := by
        simp [firstSome, hf]
      rw [heq, ih]
      constructor
      · rintro ⟨i, h1, h2⟩
        refine ⟨i + 1, by simpa [List.drop_succ_cons] using h1, ?_⟩
        intro j hj
        cases j with
        | zero => simpa using hf
        | succ j2 =>
          simpa [List.drop_succ_cons] using h2 j2 (by omega)
      · rintro ⟨i, h1, h2⟩
        cases i with
        | zero =>
          have h1' : f (c :: rest) = some v := by simpa using h1
          rw [hf] at h1'
          exact Option.noConfusion h1'
        | succ i2 =>
          refine ⟨i2, by simpa [List.drop_succ_cons] using h1, ?_⟩
          intro j hj
          simpa [List.drop_succ_cons] using h2 (j + 1) (by omega)

theorem dedupAux_eq_spec (l : List Article) :
    ∀ (seen : List Str) (prev : List Article),
      (∀ k, k ∈ seen ↔ ∃ b ∈ prev, articleKey b = k) →
      dedupAux seen l = dedupSpecAux prev l := by
  induction l with
  | nil => intro seen prev _; rfl
  | cons a rest ih =>
    intro seen prev hinv
    by_cases hmem : articleKey a ∈ seen
    · have hex : ∃ b ∈ prev, articleKey b = articleKey a :=
        (hinv (articleKey a)).mp hmem
      rw [dedupAux, dedupSpecAux, if_pos hmem, if_pos hex]
      refine ih seen (prev ++ [a]) ?_
      intro k
      rw [hinv k]
      constructor
      · rintro ⟨b, hb, hk⟩
        exact ⟨b, by simp [hb], hk⟩
      · rintro ⟨b, hb, hk⟩
        rcases List.mem_append.mp hb with hb' | hb'
        · exact ⟨b, hb', hk⟩
        · obtain rfl : b = a := by simpa using hb'
          rcases hex with ⟨b2, hb2, hk2⟩
          exact ⟨b2, hb2, hk2.trans hk⟩
    · have hex : ¬∃ b ∈ prev, articleKey b = articleKey a := by
        intro hex
        exact hmem ((hinv (articleKey a)).mpr hex)
      rw [dedupAux, dedupSpecAux, if_neg hmem, if_neg hex]
      refine congrArg (a :: ·) (ih (articleKey a :: seen) (prev ++ [a]) ?_)
      intro k
      constructor
      · intro hk
        rcases List.mem_cons.mp hk with hk' | hk'
        · exact ⟨a, by simp, hk'.symm⟩
        · rcases (hinv k).mp hk' with ⟨b, hb, hbk⟩
          exact ⟨b, by simp [hb], hbk⟩
      · rintro ⟨b, hb, hk⟩
        rcases List.mem_append.mp hb with hb' | hb'
        · exact List.mem_cons_of_mem _ ((hinv k).mpr ⟨b, hb', hk⟩)
        · obtain rfl : b = a := by simpa using hb'
          exact hk ▸ List.mem_cons_self _ _

theorem dedupAux_sublist (l : List Article) :
    ∀ seen : List Str, List.Sublist (dedupAux seen l) l := by
  induction l with
  | nil => intro seen; exact List.Sublist.refl []
  | cons a rest ih =>
    intro seen
    by_cases hmem : articleKey a ∈ seen
    · rw [dedupAux, if_pos hmem]
      exact List.Sublist.cons a (ih seen)
    · rw [dedupAux, if_neg hmem]
      exact List.Sublist.cons₂ a (ih (articleKey a :: seen))

theorem flatten_nil_of_all_nil (L : List (List Article))
    (h : ∀ l ∈ L, l = []) : L.flatten = [] := by
  induction L with
  | nil => rfl
  | cons x xs ih =>
    rw [List.flatten_cons, h x (by simp),
      ih fun l hl => h l (List.mem_cons_of_mem _ hl)]
    rfl

/-- A concrete article used by several concrete evaluations below. -/
def sampleArticle : Article :=
  ⟨"t".toList, "l".toList, "d".toList, "t - s".toList⟩

/-- C5 counterexample: the dedup key is the joined string
`f"{title}|{link}"`, so an article whose `(title, link)` pair never
appeared earlier is still removed when the joined strings collide
(`("a|b", "c")` vs `("a", "b|c")`).  This refutes "an article is removed
if and only if some earlier article has an identical (title, link) pair". -/
theorem dedup_pair_key_counterexample :
    deduplicate_articles
        [⟨"a|b".toList, "c".toList, [], []⟩, ⟨"a".toList, "b|c".toList, [], []⟩]
      = [⟨"a|b".toList, "c".toList, [], []⟩]
    ∧ ("a|b".toList ≠ "a".toList ∧ "c".toList ≠ "b|c".toList) := by
  decide

/-- C5 (amended): deduplication keeps exactly the articles no earlier
article of the concatenated input shares a joined `title|link` key with
(`dedupSpecAux`), and the output is a subsequence of the input, so
first-seen order is preserved. -/
theorem deduplicate_articles_spec (l : List Article) :
    deduplicate_articles l = dedupSpecAux [] l
    ∧ List.Sublist (deduplicate_articles l) l :=
  ⟨dedupAux_eq_spec l [] [] (by simp), dedupAux_sublist l []⟩

/-- C6: the parsed sentiment is the integer captured at the leftmost
position where `Score:` is followed (after whitespace) by an
optional-minus-sign integer, and defaults to 0 when no position matches;
the minus sign is honored (see the witness at `-3`). -/
theorem score_extraction_leftmost (text : Str) (n : Nat) :
    ((∀ i, matchScoreHere (text.drop i) = none) →
      (parse_combined_analysis text n).overall_sentiment = 0)
    ∧ (∀ i v, matchScoreHere (text.drop i) = some v →
        (∀ j, j < i → matchScoreHere (text.drop j) = none) →
        (parse_combined_analysis text n).overall_sentiment = v) := by
  have hs : (parse_combined_analysis text n).overall_sentiment
      = (searchScore text).getD 0 := rfl
  constructor
  · intro h
    have h0 : searchScore text = none :=
      (firstSome_eq_none_iff matchScoreHere text).mpr h
    rw [hs, h0]
    rfl
  · intro i v h1 h2
    have h0 : searchScore text = some v :=
      (firstSome_eq_some_iff matchScoreHere text v).mpr ⟨i, h1, h2⟩
    rw [hs, h0]
    rfl

theorem score_extraction_leftmost_witness :
    (parse_combined_analysis "abScore: -3end".toList 1).overall_sentiment
      = -3 :=
  (score_extraction_leftmost "abScore: -3end".toList 1).2 2 (-3)
    (by decide) (by decide)

/-- C4: parsing is a total function on any text and article count (it is a
Lean function built from total searches), and each missing labeled field
falls back to its default: score 0, empty reasoning, and an empty factor
list (hence both categorized lists empty). -/
theorem parse_totality_defaults (text : Str) (n : Nat) :
    (searchScore text = none →
      (parse_combined_analysis text n).overall_sentiment = 0)
    ∧ (searchField reasoningLabel keyFactorsLabel text = none →
        (parse_combined_analysis text n).analysis_reasoning = [])
    ∧ (searchField keyFactorsLabel scoreLabel text = none →
        (parse_combined_analysis text n).key_positive_drivers = []
        ∧ (parse_combined_analysis text n).key_risk_factors = []) := by
  refine ⟨fun h => ?_, fun h => ?_, fun h => ?_⟩
  · show (searchScore text).getD 0 = 0
    rw [h]
    rfl
  · show (match searchField reasoningLabel keyFactorsLabel text with
      | some g => pyStrip g
      | none => []) = []
    rw [h]
  · have hf : parsedFactors text = [] := by
      unfold parsedFactors
      rw [h]
    constructor
    · show (if 0 < (searchScore text).getD 0 then parsedFactors text else [])
        = []
      rw [hf, ite_self]
    · show (if (searchScore text).getD 0 < 0 then parsedFactors text else [])
        = []
      rw [hf, ite_self]

theorem parse_totality_defaults_witness :
    (parse_combined_analysis "hello".toList 2).overall_sentiment = 0
    ∧ (parse_combined_analysis "hello".toList 2).analysis_reasoning = []
    ∧ (parse_combined_analysis "hello".toList 2).key_positive_drivers = []
    ∧ (parse_combined_analysis "hello".toList 2).key_risk_factors = [] := by
  have h := parse_totality_defaults "hello".toList 2
  exact ⟨h.1 (by decide), h.2.1 (by decide),
    (h.2.2 (by decide)).1, (h.2.2 (by decide)).2⟩

/-- C7: the single parsed factor list is routed by the sign of the score:
positive score fills `key_positive_drivers` (risks empty), negative score
fills `key_risk_factors` (drivers empty), zero score leaves both empty. -/
theorem factor_categorization (text : Str) (n : Nat) :
    (0 < (parse_combined_analysis text n).overall_sentiment →
      (parse_combined_analysis text n).key_positive_drivers
          = parsedFactors text
        ∧ (parse_combined_analysis text n).key_risk_factors = [])
    ∧ ((parse_combined_analysis text n).overall_sentiment < 0 →
      (parse_combined_analysis text n).key_risk_factors = parsedFactors text
        ∧ (parse_combined_analysis text n).key_positive_drivers = [])
    ∧ ((parse_combined_analysis text n).overall_sentiment = 0 →
      (parse_combined_analysis text n).key_positive_drivers = []
        ∧ (parse_combined_analysis text n).key_risk_factors = []) := by
  have hs : (parse_combined_analysis text n).overall_sentiment
      = (searchScore text).getD 0 := rfl
  have hp : (parse_combined_analysis text n).key_positive_drivers
      = if 0 < (searchScore text).getD 0 then parsedFactors text else [] := rfl
  have hr : (parse_combined_analysis text n).key_risk_factors
      = if (searchScore text).getD 0 < 0 then parsedFactors text else [] := rfl
  refine ⟨fun h => ?_, fun h => ?_, fun h => ?_⟩
  · rw [hs] at h
    rw [hp, hr, if_pos h, if_neg (by omega)]
    exact ⟨rfl, rfl⟩
  · rw [hs] at h
    rw [hp, hr, if_pos h, if_neg (by omega)]
    exact ⟨rfl, rfl⟩
  · rw [hs] at h
    rw [hp, hr, if_neg (by omega), if_neg (by omega)]
    exact ⟨rfl, rfl⟩

theorem factor_categorization_witness :
    (parse_combined_analysis "Score: 2\nKey Factors: A".toList
        4).key_positive_drivers
      = parsedFactors "Score: 2\nKey Factors: A".toList
    ∧ (parse_combined_analysis "Score: 2\nKey Factors: A".toList
        4).key_risk_factors = [] :=
  (factor_categorization "Score: 2\nKey Factors: A".toList 4).1 (by decide)

/-- C8: `confidence = min(100, articles_analyzed * 10)` for every text and
every article count, hence monotone in the count and capped at 100. -/
theorem confidence_formula (text : Str) (n m : Nat) :
    (parse_combined_analysis text n).confidence = min 100 (n * 10)
    ∧ (n ≤ m → (parse_combined_analysis text n).confidence
        ≤ (parse_combined_analysis text m).confidence)
    ∧ (parse_combined_analysis text n).confidence ≤ 100 := by
  have h1 : (parse_combined_analysis text n).confidence = min 100 (n * 10) :=
    rfl
  have h2 : (parse_combined_analysis text m).confidence = min 100 (m * 10) :=
    rfl
  refine ⟨h1, fun h => ?_, ?_⟩
  · rw [h1, h2]
    omega
  · rw [h1]
    omega

theorem confidence_formula_witness :
    (parse_combined_analysis "w".toList 3).confidence = min 100 (3 * 10)
    ∧ (parse_combined_analysis "w".toList 3).confidence
        ≤ (parse_combined_analysis "w".toList 20).confidence
    ∧ (parse_combined_analysis "w".toList 3).confidence ≤ 100 := by
  have h := confidence_formula "w".toList 3 20
  exact ⟨h.1, h.2.1 (by decide), h.2.2⟩

theorem analyze_sentiment_cases (company today : Str)
    (qas : List (List Article)) (reply : Str) :
    (analyze_company_news company today qas reply).1.overall_sentiment = 0
    ∨ (analyze_company_news company today qas reply).1.overall_sentiment
        = (searchScore reply).getD 0 := by
  by_cases h1 : (deduplicate_articles qas.flatten).isEmpty = true
  · left
    simp [analyze_company_news, h1]
  · by_cases h2 : containsSub errorMarker reply = true
    · left
      simp [analyze_company_news, h1, h2]
    · right
      simp [analyze_company_news, h1, h2]
      rfl

/-- C3 counterexample: the pipeline stores the parsed score without
clamping, so a completion reply of `"Score: 100"` yields an
`overall_sentiment` of 100, outside [-5, 5] (and on the success path). -/
theorem sentiment_range_counterexample :
    (analyze_company_news "x".toList "2026-10-12".toList [[sampleArticle]]
        "Score: 100".toList).1.overall_sentiment = 100
    ∧ ¬((analyze_company_news "x".toList "2026-10-12".toList [[sampleArticle]]
        "Score: 100".toList).1.overall_sentiment ≤ 5) := by
  decide

/-- C3 (amended): `overall_sentiment` is the unclamped integer captured
after the first matching `Score:` label of the reply; it lies in [-5, 5]
on every path provided the captured integer, when one exists, does. -/
theorem sentiment_range_amended (company today : Str)
    (qas : List (List Article)) (reply : Str)
    (hv : searchScore reply = none
      ∨ ∃ v, searchScore reply = some v ∧ -5 ≤ v ∧ v ≤ 5) :
    -5 ≤ (analyze_company_news company today qas reply).1.overall_sentiment
    ∧ (analyze_company_news company today qas reply).1.overall_sentiment
        ≤ 5 := by
  rcases analyze_sentiment_cases company today qas reply with h | h
  · rw [h]
    exact ⟨by omega, by omega⟩
  · rw [h]
    rcases hv with hn | ⟨v, hsome, hlo, hhi⟩
    · rw [hn]
      exact ⟨by decide, by decide⟩
    · rw [hsome]
      exact ⟨hlo, hhi⟩

theorem sentiment_range_amended_witness :
    -5 ≤ (analyze_company_news "x".toList "2026-10-12".toList
        [[sampleArticle]] "Score: 3".toList).1.overall_sentiment
    ∧ (analyze_company_news "x".toList "2026-10-12".toList
        [[sampleArticle]] "Score: 3".toList).1.overall_sentiment ≤ 5 :=
  sentiment_range_amended "x".toList "2026-10-12".toList [[sampleArticle]]
    "Score: 3".toList
    (Or.inr ⟨3, by decide, by decide, by decide⟩)

/-- C9: when every query contributes zero articles, `analyze_company_news`
returns the fixed error record (status `error`, message
`"No articles found for analysis"`, all numeric fields zero, empty lists)
and performs zero completion-service calls (second component 0). -/
theorem zero_article_short_circuit (company today : Str)
    (qas : List (List Article)) (reply : Str)
    (h : ∀ l ∈ qas, l = []) :
    analyze_company_news company today qas reply =
      ({ company := company
         analysis_date := today
         search_queries_used := buildQueries company
         articles_analyzed := 0
         overall_sentiment := 0
         analysis_reasoning := none
         key_positive_drivers := []
         key_risk_factors := []
         confidence := 0
         status := "error".toList
         display_message := "No articles found for analysis".toList }, 0) := by
  have h2 : qas.flatten = [] := flatten_nil_of_all_nil qas h
  simp only [analyze_company_news, h2]
  rfl

theorem zero_article_short_circuit_witness :
    analyze_company_news "x".toList "2026-10-12".toList [[], [], [], []]
        "r".toList =
      ({ company := "x".toList
         analysis_date := "2026-10-12".toList
         search_queries_used := buildQueries "x".toList
         articles_analyzed := 0
         overall_sentiment := 0
         analysis_reasoning := none
         key_positive_drivers := []
         key_risk_factors := []
         confidence := 0
         status := "error".toList
         display_message := "No articles found for analysis".toList }, 0) :=
  zero_article_short_circuit "x".toList "2026-10-12".toList [[], [], [], []]
    "r".toList (by decide)

/-- C10: with at least one deduplicated article, a reply containing the
substring `"Error:"` makes `analyze_company_news` return the error record:
status `error`, zero sentiment and confidence, empty factor lists, and the
full reply as `display_message`; the reply is never given to the parser
(the record is fixed regardless of any `Score:` content, as the witness
shows on a reply that also contains `"Score: 4"`). -/
theorem error_reply_classification (company today : Str)
    (qas : List (List Article)) (reply : Str)
    (h1 : deduplicate_articles qas.flatten ≠ [])
    (h2 : containsSub errorMarker reply = true) :
    analyze_company_news company today qas reply =
      ({ company := company
         analysis_date := today
         search_queries_used := buildQueries company
         articles_analyzed := (deduplicate_articles qas.flatten).length
         overall_sentiment := 0
         analysis_reasoning := none
         key_positive_drivers := []
         key_risk_factors := []
         confidence := 0
         status := "error".toList
         display_message := reply }, 1) := by
  have hne : (deduplicate_articles qas.flatten).isEmpty = false := by
    cases hd : deduplicate_articles qas.flatten with
    | nil => exact absurd hd h1
    | cons x xs => rfl
  simp [analyze_company_news, hne, h2]

theorem error_reply_classification_witness :
    analyze_company_news "c".toList "d".toList [[sampleArticle]]
        "Error: x Score: 4".toList =
      ({ company := "c".toList
         analysis_date := "d".toList
         search_queries_used := buildQueries "c".toList
         articles_analyzed := 1
         overall_sentiment := 0
         analysis_reasoning := none
         key_positive_drivers := []
         key_risk_factors := []
         confidence := 0
         status := "error".toList
         display_message := "Error: x Score: 4".toList }, 1) :=
  error_reply_classification "c".toList "d".toList [[sampleArticle]]
    "Error: x Score: 4".toList (by decide) (by decide)

/-- C1: the claimed guarded path cannot run.  With `force = false` the
guard evaluates `check_analysis_exists`, which calls the instance method
`_generate_filename` through the class with one positional argument and
raises `TypeError` above its `try`, so for every company, stored state,
pipeline outcome and save location, `analyze_company` with `force=false`
raises `TypeError` instead of returning any record — stored or skipped —
while indeed performing zero completion-service calls (the crash precedes
construction of `BSEAnalysisService`). -/
theorem guard_raises_typeerror (company : Str) (storedParses : Bool)
    (pipeline : AnalysisRecord × Nat) (saveLoc : Str) :
    check_analysis_exists company storedParses
        = Except.error PyExc.typeError
    ∧ analyze_company company false storedParses pipeline saveLoc
        = (Except.error PyExc.typeError, 0) :=
  ⟨rfl, rfl⟩

/-- C2: `scrape_bse_news` passes three positional arguments to the
two-parameter `track_scrape_result`, so CPython raises `TypeError` at the
call site, before the swallowing `try/except` inside the tracker body can
run; the `except` handler repeats the same call and the `TypeError`
propagates to the caller on every invocation — even when the analysis
itself succeeded.  The second conjunct shows the tracker body itself is
exception-free when called with the correct arity, confirming that the
claimed swallowing is the intent of `track_scrape_result` and the call
arity is the slip. -/
theorem scrape_tracking_typeerror (a : GuardedOutcome) :
    scrape_bse_news (Except.ok a) = Except.error PyExc.typeError
    ∧ track_scrape_result 2 = Except.ok () :=
  ⟨rfl, rfl⟩
